import Mathlib

/-!
Shallow embedding of the disambiguation-aware geocoding resolver
(src/modules/geocoding.py) and of the weather data service
(src/modules/weather_data.py) of the gusmmm/tools repository, together
with theorems settling the specification claims about them.
-/

namespace GeocodingService

/-- One geocoding search result, as it appears in the JSON array returned by
the provider (geocoding.py line 88).  `lat` and `lon` are `some q` when the
value stored under the key parses to the number `q` under the float coercion
of lines 114 and 115, and `none` when the key is missing or its value does
not parse (both land in the ValueError and KeyError handler of line 133).
`displayName` and `placeType` are `none` when the key is absent, in which
case the dict-get defaults of lines 117, 163, 214 and 215 apply.  `country`
is `none` when the result has no `address.country` attribute (lines 98-99). -/
structure Candidate where
  lat : Option ℚ
  lon : Option ℚ
  displayName : Option String
  placeType : Option String
  country : Option String
deriving Repr, DecidableEq

/-- Outcome of the HTTP transaction of geocoding.py lines 80-88: either the
parsed JSON list of results, or one of the failure categories caught by the
handlers of lines 121-135 (`parseError` is a response body that
`response.json()` cannot parse). -/
inductive ProviderResponse where
  | ok (results : List Candidate)
  | httpError
  | connectionError
  | timeout
  | requestError
  | parseError
deriving Repr, DecidableEq

/-- The failure category attached to an unresolved outcome that originates in
one of the transport-level exception handlers of geocoding.py lines 121-135. -/
inductive ProviderErrorCategory where
  | http
  | connection
  | timeout
  | request
  | parse
deriving Repr, DecidableEq

/-- Reason tag identifying the distinct `return None` control paths of
`_get_coordinates_with_disambiguation`: provider returned no results
(line 92), the user cancelled country selection (lines 107-108), a
transport failure was caught (lines 121-132 and the body-parse branch of
line 133), or the float coercion of the selected result failed
(lines 114-115 caught at line 133). -/
inductive UnresolvedReason where
  | notFound
  | userCancelled
  | providerError (cat : ProviderErrorCategory)
  | malformedData
deriving Repr, DecidableEq

/-- The resolution outcome: the coordinate pair and display name printed and
returned at lines 114-119, or a failure with the reason tag of its
control path. -/
inductive Resolution where
  | resolved (lat lon : ℚ) (displayName : String)
  | unresolved (reason : UnresolvedReason)
deriving Repr, DecidableEq

/-- Wrapper distinguishing a normal return of the resolver from the case in
which the scripted user input runs out while an input loop of lines 173-192
or 222-232 is still awaiting a valid entry (in the source, `input()` would
then raise EOFError). -/
inductive ResolveOutcome where
  | result (r : Resolution)
  | inputExhausted
deriving Repr, DecidableEq

/-- One entry typed at an `input()` prompt: `num n` when `int(choice)`
parses to `n`, `junk` when it raises ValueError and the loop re-prompts
(lines 191-192 and 231-232). -/
inductive UserEntry where
  | num (n : ℤ)
  | junk
deriving Repr, DecidableEq

/-- Record of the tables the resolver printed before reading input: each
country-selection prompt lists (country, example display name) rows
(lines 158-164) and each candidate-selection prompt lists
(display name, place type) rows (lines 213-216). -/
structure PromptLog where
  countryPrompts : List (List (String × String))
  candidatePrompts : List (List (String × String))
deriving Repr, DecidableEq

/-- Insert one result under its country key, preserving first-seen key order
and per-key provider order, as dict insertion does at lines 100-102. -/
def insertGrouped (groups : List (String × List Candidate)) (c : String)
    (r : Candidate) : List (String × List Candidate) :=
  match groups with
  | [] => [(c, [r])]
  | (k, rs) :: rest =>
      if k = c then (k, rs ++ [r]) :: rest
      else (k, rs) :: insertGrouped rest c r

/-- One iteration of the grouping loop of lines 97-102: a result without an
`address.country` attribute is skipped, any other is appended to the list
held under its country. -/
def groupStep (groups : List (String × List Candidate)) (r : Candidate) :
    List (String × List Candidate) :=
  match r.country with
  | none => groups
  | some c => insertGrouped groups c r

/-- The `countries` mapping built at lines 96-102, modelled as an
insertion-ordered association list. -/
def groupByCountry (results : List Candidate) : List (String × List Candidate) :=
  results.foldl groupStep []

/-- The row shown for one country in the selection table of lines 161-164:
the country name and, as example, the display name of the first result of
that country, defaulting to "location, country" when the result has no
display name.  The empty-group case cannot arise from `groupByCountry` and
is given the same default. -/
def countryOptionRow (location : String) (p : String × List Candidate) :
    String × String :=
  match p.2 with
  | [] => (p.1, location ++ ", " ++ p.1)
  | c :: _ => (p.1, c.displayName.getD (location ++ ", " ++ p.1))

/-- The row shown for one candidate in the table of lines 213-216: display
name defaulting to "Unknown location" and type defaulting to "Unknown". -/
def candidateOptionRow (c : Candidate) : String × String :=
  (c.displayName.getD "Unknown location", c.placeType.getD "Unknown")

/-- Outcome of the country-selection dialogue of lines 173-192, possibly
followed by the within-country dialogue of lines 222-232. -/
inductive SelOutcome where
  | cancelled
  | exhaustedInput
  | picked (c : Candidate)
deriving Repr, DecidableEq

/-- The validated read loop of `_prompt_country_selection` (lines 173-192):
entries are consumed until one is a number n with 0 <= n <= countryCount;
that n is returned together with the unread remainder of the script.  `none`
models the script running out while the source would still be looping. -/
def countryChoiceLoop (countryCount : ℕ) :
    List UserEntry → Option (ℕ × List UserEntry)
  | [] => none
  | UserEntry.junk :: rest => countryChoiceLoop countryCount rest
  | UserEntry.num n :: rest =>
      if 0 ≤ n ∧ n ≤ (countryCount : ℤ) then some (n.toNat, rest)
      else countryChoiceLoop countryCount rest

/-- The validated read loop of `_select_specific_location` (lines 222-232):
entries are consumed until one is a number n with 1 <= n <= count; the
0-based index n - 1 is returned.  `none` models script exhaustion. -/
def candidateChoiceLoop (count : ℕ) : List UserEntry → Option ℕ
  | [] => none
  | UserEntry.junk :: rest => candidateChoiceLoop count rest
  | UserEntry.num n :: rest =>
      if 1 ≤ n ∧ n ≤ (count : ℤ) then some (n.toNat - 1)
      else candidateChoiceLoop count rest

/-- `_select_specific_location` (lines 194-232): read a valid 1-based choice
and return that candidate.  The loop guarantees the index is in range, so
the `none` of the list lookup is unreachable for in-range choices. -/
def selectSpecificLocation (locations : List Candidate)
    (script : List UserEntry) : Option Candidate :=
  match candidateChoiceLoop locations.length script with
  | none => none
  | some j => locations[j]?

/-- `_prompt_country_selection` (lines 139-192): print the country table,
read a validated choice, where 0 cancels (lines 178-179); for a chosen
country with more than one result, delegate to `_select_specific_location`
(lines 183-186), otherwise return the single result (line 188).  The log
records each table printed.  The lookup-failure and empty-group branches
are unreachable: the loop bounds the choice and groups are never empty. -/
def promptCountrySelection (location : String)
    (countries : List (String × List Candidate)) (script : List UserEntry) :
    SelOutcome × PromptLog :=
  match countryChoiceLoop countries.length script with
  | none =>
      (SelOutcome.exhaustedInput,
       ⟨[countries.map (countryOptionRow location)], []⟩)
  | some (k, rest) =>
      if k = 0 then
        (SelOutcome.cancelled,
         ⟨[countries.map (countryOptionRow location)], []⟩)
      else
        match countries[k - 1]? with
        | none =>
            (SelOutcome.exhaustedInput,
             ⟨[countries.map (countryOptionRow location)], []⟩)
        | some (_, countryResults) =>
            if 1 < countryResults.length then
              match selectSpecificLocation countryResults rest with
              | none =>
                  (SelOutcome.exhaustedInput,
                   ⟨[countries.map (countryOptionRow location)],
                    [countryResults.map candidateOptionRow]⟩)
              | some sel =>
                  (SelOutcome.picked sel,
                   ⟨[countries.map (countryOptionRow location)],
                    [countryResults.map candidateOptionRow]⟩)
            else
              match countryResults.head? with
              | some sel =>
                  (SelOutcome.picked sel,
                   ⟨[countries.map (countryOptionRow location)], []⟩)
              | none =>
                  (SelOutcome.exhaustedInput,
                   ⟨[countries.map (countryOptionRow location)], []⟩)

/-- Lines 113-119: coerce the lat and lon of the selected result to numbers
and build the success value; a failing coercion lands in the handler of
line 133 and yields the malformed-data failure.  The display name defaults
to the query text (line 117). -/
def extractCoordinates (location : String) (sel : Candidate) : ResolveOutcome :=
  match sel.lat, sel.lon with
  | some la, some lo =>
      ResolveOutcome.result (Resolution.resolved la lo (sel.displayName.getD location))
  | _, _ => ResolveOutcome.result (Resolution.unresolved UnresolvedReason.malformedData)

/-- `_get_coordinates_with_disambiguation` (lines 52-137): dispatch on the
transport outcome; an empty result list is "not found" (lines 90-92);
results spanning more than one country go through country selection
(lines 105-108), a cancel there returns the failure of line 108; otherwise
the first result in provider order is used directly (line 111). -/
def getCoordinatesWithDisambiguation (location : String)
    (resp : ProviderResponse) (script : List UserEntry) :
    ResolveOutcome × PromptLog :=
  match resp with
  | ProviderResponse.httpError =>
      (ResolveOutcome.result (Resolution.unresolved
        (UnresolvedReason.providerError ProviderErrorCategory.http)), ⟨[], []⟩)
  | ProviderResponse.connectionError =>
      (ResolveOutcome.result (Resolution.unresolved
        (UnresolvedReason.providerError ProviderErrorCategory.connection)), ⟨[], []⟩)
  | ProviderResponse.timeout =>
      (ResolveOutcome.result (Resolution.unresolved
        (UnresolvedReason.providerError ProviderErrorCategory.timeout)), ⟨[], []⟩)
  | ProviderResponse.requestError =>
      (ResolveOutcome.result (Resolution.unresolved
        (UnresolvedReason.providerError ProviderErrorCategory.request)), ⟨[], []⟩)
  | ProviderResponse.parseError =>
      (ResolveOutcome.result (Resolution.unresolved
        (UnresolvedReason.providerError ProviderErrorCategory.parse)), ⟨[], []⟩)
  | ProviderResponse.ok [] =>
      (ResolveOutcome.result (Resolution.unresolved UnresolvedReason.notFound), ⟨[], []⟩)
  | ProviderResponse.ok (first :: rest) =>
      if 1 < (groupByCountry (first :: rest)).length then
        match promptCountrySelection location (groupByCountry (first :: rest)) script with
        | (SelOutcome.cancelled, log) =>
            (ResolveOutcome.result (Resolution.unresolved UnresolvedReason.userCancelled), log)
        | (SelOutcome.exhaustedInput, log) => (ResolveOutcome.inputExhausted, log)
        | (SelOutcome.picked sel, log) => (extractCoordinates location sel, log)
      else
        (extractCoordinates location first, ⟨[], []⟩)

/-- The error raised by `geocode` (lines 46-47) on an empty query. -/
inductive GeocodeError where
  | invalidInput
deriving Repr, DecidableEq

/-- The emptiness guard of lines 46-47: the Python condition
`not location or location.strip() == ""` holds exactly when every character
of the text is whitespace (including the empty text); whitespace is
modelled by Char.isWhitespace. -/
def blankQuery (location : String) : Bool :=
  location.data.all Char.isWhitespace

/-- `geocode` (lines 27-50): reject a query that is empty after trimming,
before any provider interaction, then delegate to the disambiguation
routine. -/
def geocode (location : String) (resp : ProviderResponse)
    (script : List UserEntry) :
    Except GeocodeError (ResolveOutcome × PromptLog) :=
  if blankQuery location then Except.error GeocodeError.invalidInput
  else Except.ok (getCoordinatesWithDisambiguation location resp script)

end GeocodingService

namespace WeatherDataService

/-- The `current_weather` object of the raw Open-Meteo payload, with the
fields read by weather_data.py lines 502-510. -/
structure CurrentWeather where
  temperature : ℚ
  windspeed : ℚ
  winddirection : ℚ
  weathercode : ℤ
  time : String
deriving Repr, DecidableEq

/-- The `daily` object of the raw payload, with the parallel arrays read by
lines 599-607. -/
structure DailyBlock where
  time : List String
  temperature_2m_max : List ℚ
  temperature_2m_min : List ℚ
  precipitation_sum : List ℚ
deriving Repr, DecidableEq

/-- The parsed body of a successful weather request; either top-level object
may be absent (the membership tests of lines 484 and 586). -/
structure RawWeatherData where
  current_weather : Option CurrentWeather
  daily : Option DailyBlock
deriving Repr, DecidableEq

/-- Outcome of the HTTP transaction of lines 70-73: the parsed payload, or
one of the failure categories caught by the handlers of lines 76-90. -/
inductive WeatherResponse where
  | ok (data : RawWeatherData)
  | httpError
  | connectionError
  | timeout
  | requestError
  | parseError
deriving Repr, DecidableEq

/-- The coordinate-validation ValueError raised at lines 49-52 before any
request is issued. -/
inductive RangeError where
  | latitude
  | longitude
deriving Repr, DecidableEq

/-- The message carried by the ValueError of lines 50 and 52. -/
def rangeErrorMessage : RangeError → String
  | RangeError.latitude => "Latitude must be between -90 and 90 degrees"
  | RangeError.longitude => "Longitude must be between -180 and 180 degrees"

/-- The request and handler block of lines 68-92: a parsed payload on
success, None for every caught transport failure. -/
def responseBody : WeatherResponse → Option RawWeatherData
  | WeatherResponse.ok data => some data
  | WeatherResponse.httpError => none
  | WeatherResponse.connectionError => none
  | WeatherResponse.timeout => none
  | WeatherResponse.requestError => none
  | WeatherResponse.parseError => none

/-- `get_weather` (lines 27-92): validate latitude then longitude with the
inclusive bounds of lines 49-52, raising before the request; then the
request block of lines 68-92.  The `include_forecast` flag only changes the
request parameters (lines 62-66), so the returned body is whatever the
transport outcome carries. -/
def get_weather (latitude longitude : ℚ) (_include_forecast : Bool)
    (resp : WeatherResponse) : Except RangeError (Option RawWeatherData) :=
  if ¬(-90 ≤ latitude ∧ latitude ≤ 90) then Except.error RangeError.latitude
  else if ¬(-180 ≤ longitude ∧ longitude ≤ 180) then Except.error RangeError.longitude
  else Except.ok (responseBody resp)

/-- The `location` object of the formatted JSON (lines 497-500). -/
structure LocationJson where
  latitude : ℚ
  longitude : ℚ
deriving Repr, DecidableEq

/-- The `wind` object of the formatted current weather (lines 505-509). -/
structure WindJson where
  speed : ℚ
  direction : ℚ
  direction_compass : String
deriving Repr, DecidableEq

/-- The `current` object of the formatted JSON (lines 501-511). -/
structure CurrentJson where
  temperature : ℚ
  weather_condition : String
  weather_code : ℤ
  wind : WindJson
  time : String
deriving Repr, DecidableEq

/-- One element of the formatted `forecast` array (lines 600-607), with the
nested temperature object flattened into min and max fields. -/
structure ForecastDay where
  date : String
  temperature_min : ℚ
  temperature_max : ℚ
  precipitation : ℚ
deriving Repr, DecidableEq

/-- The `status` object present in every formatted result (for example
lines 516-519). -/
structure WeatherStatus where
  success : Bool
  message : String
deriving Repr, DecidableEq

/-- A dict returned by `get_weather_json` or `get_forecast_json`: each
top-level key may be absent (the failure dicts of lines 485-490 and 587-592
carry only `status`).  `units` is an insertion-ordered association list. -/
structure SubResult where
  location : Option LocationJson
  current : Option CurrentJson
  forecast : Option (List ForecastDay)
  units : Option (List (String × String))
  status : Option WeatherStatus
deriving Repr, DecidableEq

/-- A sub-result consisting only of a failure status, as built at
lines 485-490, 526-531, 587-592 and 629-634. -/
def statusOnly (success : Bool) (message : String) : SubResult :=
  ⟨none, none, none, none, some ⟨success, message⟩⟩

/-- `_get_wind_direction_text` (lines 320-335): map degrees to one of the 16
compass labels; Python round() rounds half to even, as Rat.round does not,
so the bankers rounding of line 334 is spelled out on the halfway case. -/
def windDirectionText (degrees : ℚ) : String :=
  let directions : List String :=
    ["N", "NNE", "NE", "ENE", "E", "ESE", "SE", "SSE",
     "S", "SSW", "SW", "WSW", "W", "WNW", "NW", "NNW"]
  let q : ℚ := degrees / (360 / 16)
  let idx : ℤ := if q - Rat.floor q = 1 / 2
    then (if (Rat.floor q) % 2 = 0 then Rat.floor q else Rat.floor q + 1)
    else Rat.floor (q + 1 / 2)
  (directions[(idx % 16).toNat]?).getD "N"

/-- `_get_weather_description` (lines 283-318): WMO code to text, with the
fallback of line 318. -/
def weatherDescription (code : ℤ) : String :=
  if code = 0 then "Clear sky"
  else if code = 1 then "Mainly clear"
  else if code = 2 then "Partly cloudy"
  else if code = 3 then "Overcast"
  else if code = 45 then "Fog"
  else if code = 48 then "Depositing rime fog"
  else if code = 51 then "Light drizzle"
  else if code = 53 then "Moderate drizzle"
  else if code = 55 then "Dense drizzle"
  else if code = 61 then "Slight rain"
  else if code = 63 then "Moderate rain"
  else if code = 65 then "Heavy rain"
  else if code = 71 then "Slight snow fall"
  else if code = 73 then "Moderate snow fall"
  else if code = 75 then "Heavy snow fall"
  else if code = 80 then "Slight rain showers"
  else if code = 81 then "Moderate rain showers"
  else if code = 82 then "Violent rain showers"
  else if code = 85 then "Slight snow showers"
  else if code = 86 then "Heavy snow showers"
  else if code = 95 then "Thunderstorm"
  else if code = 96 then "Thunderstorm with slight hail"
  else if code = 99 then "Thunderstorm with heavy hail"
  else "Unknown (code: " ++ toString code ++ ")"

/-- `get_weather_json` (lines 436-531): a range ValueError from
`get_weather` is caught by the except of line 524 and becomes an error
status; a transport failure or a payload without `current_weather` becomes
the failure dict of lines 485-490; otherwise the formatted dict of
lines 496-520 with a success status. -/
def get_weather_json (latitude longitude : ℚ) (resp : WeatherResponse) :
    SubResult :=
  match get_weather latitude longitude false resp with
  | Except.error e => statusOnly false ("Error: " ++ rangeErrorMessage e)
  | Except.ok none => statusOnly false "Failed to retrieve weather data"
  | Except.ok (some raw) =>
      match raw.current_weather with
      | none => statusOnly false "Failed to retrieve weather data"
      | some current =>
          { location := some ⟨latitude, longitude⟩
            current := some
              { temperature := current.temperature
                weather_condition := weatherDescription current.weathercode
                weather_code := current.weathercode
                wind :=
                  { speed := current.windspeed
                    direction := current.winddirection
                    direction_compass := windDirectionText current.winddirection }
                time := current.time }
            forecast := none
            units := some [("temperature", "Â°C"), ("wind_speed", "km/h")]
            status := some ⟨true, "Weather data retrieved successfully"⟩ }

/-- The loop of lines 599-607 building the formatted forecast array for the
first n days: the index is always within `time` (n is clamped by the caller)
but an access past the end of one of the other arrays raises the IndexError
that the except of line 627 turns into an error status, modelled by `none`. -/
def buildForecastDays (daily : DailyBlock) (n : ℕ) :
    Option (List ForecastDay) :=
  (List.range n).mapM fun i => do
    let date ← daily.time[i]?
    let tmin ← daily.temperature_2m_min[i]?
    let tmax ← daily.temperature_2m_max[i]?
    let prec ← daily.precipitation_sum[i]?
    pure ⟨date, tmin, tmax, prec⟩

/-- `get_forecast_json` (lines 533-634): clamp `days` to 7 when outside 1..7
(lines 580-581); a range ValueError from `get_weather` is caught at line 627
and becomes an error status; a transport failure or a payload without
`daily` becomes the failure dict of lines 587-592; an out-of-range array
access while building the day list becomes the IndexError message; otherwise
the formatted dict of lines 609-623. -/
def get_forecast_json (latitude longitude : ℚ) (days : ℕ)
    (resp : WeatherResponse) : SubResult :=
  let days := if 1 ≤ days ∧ days ≤ 7 then days else 7
  match get_weather latitude longitude true resp with
  | Except.error e => statusOnly false ("Error: " ++ rangeErrorMessage e)
  | Except.ok none => statusOnly false "Failed to retrieve forecast data"
  | Except.ok (some raw) =>
      match raw.daily with
      | none => statusOnly false "Failed to retrieve forecast data"
      | some daily =>
          match buildForecastDays daily (min days daily.time.length) with
          | none => statusOnly false "Error: list index out of range"
          | some forecastDays =>
              { location := some ⟨latitude, longitude⟩
                current := none
                forecast := some forecastDays
                units := some [("temperature", "Â°C"), ("precipitation", "mm")]
                status := some ⟨true,
                  "Forecast data retrieved successfully for "
                    ++ toString forecastDays.length ++ " days"⟩ }

/-- The Python dict union applied to the two unit dicts at lines 669-672:
keys of the first dict in order, values overridden by the second, then the
keys appearing only in the second. -/
def dictMerge (a b : List (String × String)) : List (String × String) :=
  (a.map fun p =>
    match b.find? (fun q => q.1 == p.1) with
    | some q => (p.1, q.2)
    | none => p)
  ++ b.filter (fun q => ¬ a.any (fun p => p.1 == q.1))

/-- The success flag read from a sub-result by the chained dict-gets of
lines 674-675: absent status defaults to an empty dict whose `success`
defaults to False. -/
def subSuccess (r : SubResult) : Bool :=
  match r.status with
  | some st => st.success
  | none => false

/-- The combined payload of lines 662-681: every key present, with the
dict-get defaults applied. -/
structure CombinedResult where
  location : LocationJson
  current : Option CurrentJson
  forecast : List ForecastDay
  units : List (String × String)
  status : WeatherStatus
deriving Repr, DecidableEq

/-- The combining step of `get_complete_weather_json` (lines 662-681):
location falls back to the input coordinates, current to an empty dict
(modelled `none`), forecast to an empty list; units are the dict union of
the two unit dicts; success is the conjunction of the success flags of the
two sub-results and the message depends on that same conjunction. -/
def combineWeatherData (latitude longitude : ℚ)
    (current_data forecast_data : SubResult) : CombinedResult :=
  { location := current_data.location.getD ⟨latitude, longitude⟩
    current := current_data.current
    forecast := forecast_data.forecast.getD []
    units := dictMerge (current_data.units.getD []) (forecast_data.units.getD [])
    status :=
      { success := subSuccess current_data && subSuccess forecast_data
        message :=
          if subSuccess current_data && subSuccess forecast_data then
            "Complete weather data retrieved successfully"
          else "Partial or no data retrieved" } }

/-- `get_complete_weather_json` (lines 636-692): obtain the current-weather
and forecast sub-results (lines 657-659), each from its own request, and
combine them (lines 662-681). -/
def get_complete_weather_json (latitude longitude : ℚ)
    (currentResp forecastResp : WeatherResponse) : CombinedResult :=
  combineWeatherData latitude longitude
    (get_weather_json latitude longitude currentResp)
    (get_forecast_json latitude longitude 7 forecastResp)

end WeatherDataService

namespace GeocodingService

/-- Inserting a result whose country heads the association list appends it
to that list of results. -/
lemma insertGrouped_self (c : String) (rs : List Candidate)
    (rest : List (String × List Candidate)) (r : Candidate) :
    insertGrouped ((c, rs) :: rest) c r = (c, rs ++ [r]) :: rest := by
  simp [insertGrouped]

/-- Folding the grouping step over results that all carry the same country
keeps a single group and appends them in order. -/
lemma foldl_groupStep_const (c : String) :
    ∀ (rs : List Candidate) (acc : List Candidate),
      (∀ r ∈ rs, r.country = some c) →
      List.foldl groupStep [(c, acc)] rs = [(c, acc ++ rs)]
  | [], acc, _ => by simp
  | r :: rs, acc, h => by
      have hr : r.country = some c := h r (by simp)
      have hrs : ∀ x ∈ rs, x.country = some c := fun x hx => h x (by simp [hx])
      simp only [List.foldl, groupStep, hr, insertGrouped_self]
      rw [foldl_groupStep_const c rs (acc ++ [r]) hrs]
      simp

/-- A nonempty result list whose candidates all carry the country c groups
into the single entry (c, the whole list). -/
lemma groupByCountry_const (c : String) (first : Candidate)
    (rest : List Candidate) (h : ∀ r ∈ first :: rest, r.country = some c) :
    groupByCountry (first :: rest) = [(c, first :: rest)] := by
  have hf : first.country = some c := h first (by simp)
  have hr : ∀ x ∈ rest, x.country = some c := fun x hx => h x (by simp [hx])
  unfold groupByCountry
  simp only [List.foldl, groupStep, hf, insertGrouped]
  rw [foldl_groupStep_const c rest [first] hr]
  simp

/-- C1: when every candidate of the provider response carries one and the
same country, the resolver returns the resolved coordinates of the first
candidate in provider order and prints no country table and no candidate
table, regardless of how many candidates that single country holds. -/
theorem resolve_single_country_returns_first (location : String)
    (first : Candidate) (rest : List Candidate) (script : List UserEntry)
    (c : String) (la lo : ℚ)
    (hc : ∀ r ∈ first :: rest, r.country = some c)
    (hla : first.lat = some la) (hlo : first.lon = some lo) :
    getCoordinatesWithDisambiguation location
        (ProviderResponse.ok (first :: rest)) script =
      (ResolveOutcome.result
        (Resolution.resolved la lo (first.displayName.getD location)),
       ⟨[], []⟩) := by
  simp only [getCoordinatesWithDisambiguation]
  rw [groupByCountry_const c first rest hc]
  simp [extractCoordinates, hla, hlo]

/-- Witness for C1: a response holding two Portuguese candidates resolves
to the first with no prompt. -/
theorem resolve_single_country_returns_first_witness :
    getCoordinatesWithDisambiguation "Porto"
        (ProviderResponse.ok
          [⟨some 41, some (-8), some "Porto, Portugal", some "city", some "Portugal"⟩,
           ⟨some 40, some (-7), some "Porto de Mos, Portugal", some "town", some "Portugal"⟩])
        [] =
      (ResolveOutcome.result (Resolution.resolved 41 (-8) "Porto, Portugal"),
       ⟨[], []⟩) :=
  (resolve_single_country_returns_first "Porto"
      ⟨some 41, some (-8), some "Porto, Portugal", some "city", some "Portugal"⟩
      [⟨some 40, some (-7), some "Porto de Mos, Portugal", some "town", some "Portugal"⟩]
      [] "Portugal" 41 (-8) (by decide) rfl rfl).trans (by decide)

/-- C3: when the grouped response spans more than one country and the
validated country choice is the cancel entry 0, the resolver returns the
user-cancelled failure after having printed exactly the one country table
and no candidate table. -/
theorem resolve_cancel_user_cancelled (location : String) (first : Candidate)
    (rest : List Candidate) (script rest2 : List UserEntry)
    (hmulti : 1 < (groupByCountry (first :: rest)).length)
    (hcancel : countryChoiceLoop (groupByCountry (first :: rest)).length script
      = some (0, rest2)) :
    getCoordinatesWithDisambiguation location
        (ProviderResponse.ok (first :: rest)) script =
      (ResolveOutcome.result (Resolution.unresolved UnresolvedReason.userCancelled),
       ⟨[(groupByCountry (first :: rest)).map (countryOptionRow location)], []⟩) := by
  simp only [getCoordinatesWithDisambiguation]
  rw [if_pos hmulti]
  simp only [promptCountrySelection, hcancel]
  simp

/-- Witness for C3: a France and United States response with the script
typing 0 is cancelled with only the country table printed. -/
theorem resolve_cancel_user_cancelled_witness :
    getCoordinatesWithDisambiguation "Paris"
        (ProviderResponse.ok
          [⟨some 48, some 2, some "Paris, France", some "city", some "France"⟩,
           ⟨some 33, some (-95), some "Paris, Texas", some "city", some "United States"⟩])
        [UserEntry.num 0] =
      (ResolveOutcome.result (Resolution.unresolved UnresolvedReason.userCancelled),
       ⟨[[("France", "Paris, France"), ("United States", "Paris, Texas")]], []⟩) :=
  (resolve_cancel_user_cancelled "Paris"
      ⟨some 48, some 2, some "Paris, France", some "city", some "France"⟩
      [⟨some 33, some (-95), some "Paris, Texas", some "city", some "United States"⟩]
      [UserEntry.num 0] [] (by decide) (by decide)).trans (by decide)

/-- C4: a provider response with zero candidates yields the not-found
failure and neither collaborator prompt is printed. -/
theorem resolve_empty_not_found (location : String) (script : List UserEntry) :
    getCoordinatesWithDisambiguation location (ProviderResponse.ok []) script =
      (ResolveOutcome.result (Resolution.unresolved UnresolvedReason.notFound),
       ⟨[], []⟩) := rfl

/-- C6: each transport-level failure of the provider request is converted
into an unresolved result carrying its category; the resolver returns the
single Resolution channel and prints no prompt. -/
theorem resolve_transport_failure_unresolved (location : String)
    (script : List UserEntry) :
    getCoordinatesWithDisambiguation location ProviderResponse.httpError script =
      (ResolveOutcome.result (Resolution.unresolved
        (UnresolvedReason.providerError ProviderErrorCategory.http)), ⟨[], []⟩)
    ∧ getCoordinatesWithDisambiguation location ProviderResponse.connectionError script =
      (ResolveOutcome.result (Resolution.unresolved
        (UnresolvedReason.providerError ProviderErrorCategory.connection)), ⟨[], []⟩)
    ∧ getCoordinatesWithDisambiguation location ProviderResponse.timeout script =
      (ResolveOutcome.result (Resolution.unresolved
        (UnresolvedReason.providerError ProviderErrorCategory.timeout)), ⟨[], []⟩)
    ∧ getCoordinatesWithDisambiguation location ProviderResponse.requestError script =
      (ResolveOutcome.result (Resolution.unresolved
        (UnresolvedReason.providerError ProviderErrorCategory.request)), ⟨[], []⟩)
    ∧ getCoordinatesWithDisambiguation location ProviderResponse.parseError script =
      (ResolveOutcome.result (Resolution.unresolved
        (UnresolvedReason.providerError ProviderErrorCategory.parse)), ⟨[], []⟩) :=
  ⟨rfl, rfl, rfl, rfl, rfl⟩

/-- C7: a query text that is empty after trimming is rejected with the
invalid-input error, uniformly in the provider response, so no outbound
request can influence or be influenced by the call. -/
theorem geocode_empty_query_rejected (location : String)
    (resp : ProviderResponse) (script : List UserEntry)
    (h : blankQuery location = true) :
    geocode location resp script = Except.error GeocodeError.invalidInput := by
  simp [geocode, h]

/-- Witness for C7: a whitespace-only query is rejected. -/
theorem geocode_empty_query_rejected_witness :
    geocode "   " ProviderResponse.timeout [] =
      Except.error GeocodeError.invalidInput :=
  geocode_empty_query_rejected "   " ProviderResponse.timeout [] (by decide)

/-- C8: resolution is deterministic: two runs of the resolver on the same
query text, the same provider response and the same input script that both
produce resolved coordinates produce the same latitude and longitude. -/
theorem resolve_deterministic (location : String) (resp : ProviderResponse)
    (script : List UserEntry) (la1 lo1 : ℚ) (d1 : String) (log1 : PromptLog)
    (la2 lo2 : ℚ) (d2 : String) (log2 : PromptLog)
    (h1 : getCoordinatesWithDisambiguation location resp script =
      (ResolveOutcome.result (Resolution.resolved la1 lo1 d1), log1))
    (h2 : getCoordinatesWithDisambiguation location resp script =
      (ResolveOutcome.result (Resolution.resolved la2 lo2 d2), log2)) :
    la1 = la2 ∧ lo1 = lo2 := by
  rw [h1] at h2
  simp only [Prod.mk.injEq, ResolveOutcome.result.injEq,
    Resolution.resolved.injEq] at h2
  exact ⟨h2.1.1, h2.1.2.1⟩

/-- Witness for C8: the two runs on a concrete single-candidate response
agree on the coordinates. -/
theorem resolve_deterministic_witness : (41 : ℚ) = 41 ∧ (-8 : ℚ) = -8 :=
  resolve_deterministic "Porto"
    (ProviderResponse.ok
      [⟨some 41, some (-8), some "Porto, Portugal", some "city", some "Portugal"⟩])
    [] 41 (-8) "Porto, Portugal" ⟨[], []⟩ 41 (-8) "Porto, Portugal" ⟨[], []⟩
    (by decide) (by decide)

/-- C5: once the country dialogue has read a valid non-cancel choice
selecting some country group, then: if that group holds more than one
candidate, exactly one candidate table is printed, listing the display name
and place type of every candidate of the group, and the candidate picked by
the validated within-country choice is returned; if the group holds exactly
one candidate, it is returned with no candidate table printed. -/
theorem within_country_refinement (location : String)
    (countries : List (String × List Candidate)) (script rest : List UserEntry)
    (k : ℕ) (name : String) (group : List Candidate)
    (hloop : countryChoiceLoop countries.length script = some (k, rest))
    (hk : k ≠ 0)
    (hget : countries[k - 1]? = some (name, group)) :
    (∀ sel : Candidate, 1 < group.length →
        selectSpecificLocation group rest = some sel →
        promptCountrySelection location countries script =
          (SelOutcome.picked sel,
           ⟨[countries.map (countryOptionRow location)],
            [group.map candidateOptionRow]⟩))
    ∧ (∀ sel : Candidate, group = [sel] →
        promptCountrySelection location countries script =
          (SelOutcome.picked sel,
           ⟨[countries.map (countryOptionRow location)], []⟩)) := by
  constructor
  · intro sel hlen hsel
    simp only [promptCountrySelection, hloop]
    rw [if_neg hk]
    simp only [hget]
    rw [if_pos hlen]
    simp only [hsel]
  · intro sel hgroup
    subst hgroup
    simp only [promptCountrySelection, hloop]
    rw [if_neg hk]
    simp only [hget]
    simp

/-- Witness for C5: choosing the United States group of two candidates and
then the second one returns it after exactly one candidate table listing
both. -/
theorem within_country_refinement_witness :
    promptCountrySelection "Paris"
      [("France",
        [⟨some 48, some 2, some "Paris, France", some "city", some "France"⟩]),
       ("United States",
        [⟨some 33, some (-95), some "Paris, Texas", some "city", some "United States"⟩,
         ⟨some 38, some (-84), some "Paris, Kentucky", some "city", some "United States"⟩])]
      [UserEntry.num 2, UserEntry.num 2] =
      (SelOutcome.picked
        ⟨some 38, some (-84), some "Paris, Kentucky", some "city", some "United States"⟩,
       ⟨[[("France", "Paris, France"), ("United States", "Paris, Texas")]],
        [[("Paris, Texas", "city"), ("Paris, Kentucky", "city")]]⟩) :=
  ((within_country_refinement "Paris"
      [("France",
        [⟨some 48, some 2, some "Paris, France", some "city", some "France"⟩]),
       ("United States",
        [⟨some 33, some (-95), some "Paris, Texas", some "city", some "United States"⟩,
         ⟨some 38, some (-84), some "Paris, Kentucky", some "city", some "United States"⟩])]
      [UserEntry.num 2, UserEntry.num 2] [UserEntry.num 2] 2 "United States"
      [⟨some 33, some (-95), some "Paris, Texas", some "city", some "United States"⟩,
       ⟨some 38, some (-84), some "Paris, Kentucky", some "city", some "United States"⟩]
      (by decide) (by decide) (by decide)).1
    ⟨some 38, some (-84), some "Paris, Kentucky", some "city", some "United States"⟩
    (by decide) (by decide)).trans (by decide)

/-- C2: the resolver of geocoding.py is a function of the query text, the
provider response and the typed input script only; no country-hint channel
exists in it, so a two-country response raises the country table even when
a hint naming one of those countries was supplied by the caller.  The
callers in weather_agent.py line 63 and playground/agent_weather.py line 29
pass a country argument to `geocode`, whose signature at line 27 accepts
none, so in the source that call raises TypeError instead of pre-filtering
the groups.  Concretely, for the France and United States response the
country prompt is printed. -/
theorem resolver_has_no_country_hint :
    (getCoordinatesWithDisambiguation "Paris"
      (ProviderResponse.ok
        [⟨some 48, some 2, some "Paris, France", some "city", some "France"⟩,
         ⟨some 33, some (-95), some "Paris, Texas", some "city", some "United States"⟩])
      [UserEntry.num 1]).2.countryPrompts.length = 1 := by
  decide

end GeocodingService

namespace WeatherDataService

/-- C9: the weather fetch rejects out-of-range coordinates with the range
ValueError uniformly in the transport outcome, so the failure precedes any
request; inside both inclusive ranges no range error is raised.  The first
conjunct characterizes the error exactly, the second states that on
out-of-range input the result does not depend on the transport outcome. -/
theorem get_weather_range_validation (latitude longitude : ℚ) (fc : Bool) :
    (∀ resp : WeatherResponse,
      (∃ e, get_weather latitude longitude fc resp = Except.error e) ↔
        (latitude < -90 ∨ 90 < latitude ∨ longitude < -180 ∨ 180 < longitude))
    ∧ ((latitude < -90 ∨ 90 < latitude ∨ longitude < -180 ∨ 180 < longitude) →
        ∀ resp1 resp2 : WeatherResponse,
          get_weather latitude longitude fc resp1 =
            get_weather latitude longitude fc resp2) := by
  by_cases hla : -90 ≤ latitude ∧ latitude ≤ 90
  · by_cases hlo : -180 ≤ longitude ∧ longitude ≤ 180
    · have hdis : ¬(latitude < -90 ∨ 90 < latitude ∨
          longitude < -180 ∨ 180 < longitude) := by
        push_neg
        exact ⟨hla.1, hla.2, hlo.1, hlo.2⟩
      refine ⟨fun resp => ⟨fun ⟨e, he⟩ => ?_, fun h => absurd h hdis⟩,
        fun h => absurd h hdis⟩
      rw [get_weather, if_neg (not_not_intro hla), if_neg (not_not_intro hlo)] at he
      simp at he
    · have hout : longitude < -180 ∨ 180 < longitude := by
        rcases not_and_or.mp hlo with h | h
        · exact Or.inl (not_le.mp h)
        · exact Or.inr (not_le.mp h)
      have hval : ∀ resp : WeatherResponse,
          get_weather latitude longitude fc resp =
            Except.error RangeError.longitude := by
        intro resp
        rw [get_weather, if_neg (not_not_intro hla), if_pos hlo]
      refine ⟨fun resp => ⟨fun _ => Or.inr (Or.inr hout), fun _ =>
        ⟨RangeError.longitude, hval resp⟩⟩,
        fun _ resp1 resp2 => (hval resp1).trans (hval resp2).symm⟩
  · have hout : latitude < -90 ∨ 90 < latitude := by
      rcases not_and_or.mp hla with h | h
      · exact Or.inl (not_le.mp h)
      · exact Or.inr (not_le.mp h)
    have hval : ∀ resp : WeatherResponse,
        get_weather latitude longitude fc resp =
          Except.error RangeError.latitude := by
      intro resp
      rw [get_weather, if_pos hla]
    refine ⟨fun resp => ⟨fun _ => hout.imp id Or.inl, fun _ =>
      ⟨RangeError.latitude, hval resp⟩⟩,
      fun _ resp1 resp2 => (hval resp1).trans (hval resp2).symm⟩

/-- Witness for C9: latitude 100 is rejected whatever the transport did,
and the result is the same for two different transport outcomes. -/
theorem get_weather_range_validation_witness :
    (∃ e, get_weather 100 0 false WeatherResponse.timeout = Except.error e)
    ∧ get_weather 100 0 false WeatherResponse.timeout =
        get_weather 100 0 false WeatherResponse.parseError :=
  ⟨((get_weather_range_validation 100 0 false).1 WeatherResponse.timeout).mpr
      (Or.inr (Or.inl (by norm_num))),
   (get_weather_range_validation 100 0 false).2 (Or.inr (Or.inl (by norm_num)))
      WeatherResponse.timeout WeatherResponse.parseError⟩

/-- C10: the combined payload reports success exactly when both the
current-weather sub-result and the forecast sub-result report success, and
whenever it does not, its message is the partial-data message. -/
theorem complete_weather_success_conjunction (latitude longitude : ℚ)
    (currentResp forecastResp : WeatherResponse) :
    ((get_complete_weather_json latitude longitude currentResp forecastResp).status.success
        = true ↔
      subSuccess (get_weather_json latitude longitude currentResp) = true ∧
        subSuccess (get_forecast_json latitude longitude 7 forecastResp) = true)
    ∧ ((get_complete_weather_json latitude longitude currentResp forecastResp).status.success
          = false →
        (get_complete_weather_json latitude longitude currentResp forecastResp).status.message
          = "Partial or no data retrieved") := by
  constructor
  · simp [get_complete_weather_json, combineWeatherData]
  · intro h
    simp only [get_complete_weather_json, combineWeatherData] at h ⊢
    rw [if_neg]
    simp only [Bool.and_eq_false_iff] at h ⊢
    intro hcon
    rcases h with h | h
    · rw [h] at hcon
      exact Bool.false_ne_true (Bool.false_and _ ▸ hcon)
    · rw [h] at hcon
      exact Bool.false_ne_true (Bool.and_false _ ▸ hcon)

/-- Witness for C10: with both requests timing out the combined payload is
unsuccessful and carries the partial-data message. -/
theorem complete_weather_success_conjunction_witness :
    (get_complete_weather_json 40 (-74) WeatherResponse.timeout
      WeatherResponse.timeout).status.message = "Partial or no data retrieved" :=
  (complete_weather_success_conjunction 40 (-74) WeatherResponse.timeout
    WeatherResponse.timeout).2 (by decide)

end WeatherDataService
